import Mathlib

/-!
Shallow embedding of the `ai-hackathon` logistics frontend (React/TypeScript)
and, where the Python backend is absent from the sources, of the behaviour the
specification ascribes to it.  JavaScript numbers are modelled as `ℚ` (all the
comparisons appearing in the embedded code are exact on the values involved),
strings as `String`, optional values as `Option`.
-/

/-- Risk buckets of the documented threshold table
(≤3 low, 4–5 medium, 6–7 high, ≥8 critical). -/
inductive RiskBucket
  | low
  | medium
  | high
  | critical
  deriving DecidableEq, Repr

/-- The fixed threshold table of the spec on the integer 0–10 scale:
v ≤ 3 low, 4–5 medium, 6–7 high, v ≥ 8 critical. -/
def specRiskBucket (v : ℕ) : RiskBucket :=
  if v ≤ 3 then .low
  else if v ≤ 5 then .medium
  else if v ≤ 7 then .high
  else .critical

/-- Label each bucket carries on the RiskZones page. -/
def bucketLabel : RiskBucket → String
  | .low => "Low"
  | .medium => "Medium"
  | .high => "High"
  | .critical => "Critical"

/-- Hex colour each bucket carries on the route map. -/
def bucketHex : RiskBucket → String
  | .low => "#10b981"
  | .medium => "#f59e0b"
  | .high => "#fb923c"
  | .critical => "#ef4444"

/-- CSS text-colour class each bucket carries in the comparison panel
(`text-success` is the green used for low risk). -/
def bucketTextClass : RiskBucket → String
  | .low => "text-success"
  | .medium => "text-warning"
  | .high => "text-orange-500"
  | .critical => "text-danger"

namespace RiskZonesPage

/-- `getRiskLabel` from `src/frontend/src/pages/RiskZones.tsx`. -/
def getRiskLabel (level : ℚ) : String :=
  if level ≤ 3 then "Low"
  else if level ≤ 5 then "Medium"
  else if level ≤ 7 then "High"
  else "Critical"

/-- `getRiskBadgeColor` from `src/frontend/src/pages/RiskZones.tsx`. -/
def getRiskBadgeColor (level : ℚ) : String :=
  if level ≤ 3 then "bg-green-500/20 text-green-400"
  else if level ≤ 5 then "bg-yellow-500/20 text-yellow-400"
  else if level ≤ 7 then "bg-orange-500/20 text-orange-400"
  else "bg-red-500/20 text-red-400"

end RiskZonesPage

namespace RouteMapComp

/-- `getRiskColor` from `src/frontend/src/components/RouteMap.tsx`. -/
def getRiskColor (riskLevel : ℚ) : String :=
  if riskLevel ≤ 3 then "#10b981"
  else if riskLevel ≤ 5 then "#f59e0b"
  else if riskLevel ≤ 7 then "#fb923c"
  else "#ef4444"

end RouteMapComp

namespace RouteComparison

/-- `getRiskColor` from the `RouteComparison` component in
`src/frontend/src/components/CostDashboard.tsx`. -/
def getRiskColor (risk : ℚ) : String :=
  if risk < 2 then "text-success"
  else if risk < 5 then "text-warning"
  else if risk < 7 then "text-orange-500"
  else "text-danger"

end RouteComparison

/-- Decimal digit characters of a natural number, most significant first
(used to model the result of JavaScript `Number.prototype.toFixed`). -/
def natChars (n : ℕ) : List Char :=
  if _ : n < 10 then [Char.ofNat (48 + n)]
  else natChars (n / 10) ++ [Char.ofNat (48 + n % 10)]
decreasing_by exact Nat.div_lt_self (by omega) (by omega)

/-- JavaScript `x.toFixed(1)` for the non-negative rationals fed to it here:
one digit after the decimal point, rounding half up. -/
def toFixed1 (q : ℚ) : String :=
  let n : ℕ := (⌊q * 10 + 1 / 2⌋).toNat
  String.mk (natChars (n / 10)) ++ "." ++ String.mk (natChars (n % 10))

namespace RouteComparison

/-- `getDifferenceText` from the `RouteComparison` component in
`src/frontend/src/components/CostDashboard.tsx` (`lowerIsBetter` defaults to
`false` at the call sites that omit it). -/
def getDifferenceText (primary alternative : ℚ) (unit : String)
    (lowerIsBetter : Bool) : String :=
  let diff := alternative - primary
  let absDiff := |diff|
  if |diff| < 1 / 100 then "Same"
  else
    let isWorse : Bool := if lowerIsBetter then decide (diff > 0) else decide (diff > 0)
    let pfx := if isWorse then "+" else ""
    pfx ++ toFixed1 absDiff ++ unit

end RouteComparison

/-- `Coordinates` from `src/frontend/src/types/index.ts`. -/
structure Coordinates where
  lat : ℚ
  lng : ℚ
  deriving DecidableEq, Repr

/-- `VehicleInfo` from `src/frontend/src/types/index.ts`. -/
structure VehicleInfo where
  vehicle_type : String
  fuel_efficiency_mpg : ℚ
  fuel_price_per_gallon : Option ℚ
  deriving DecidableEq, Repr

/-- `TimeWindow` from `src/frontend/src/types/index.ts`. -/
structure TimeWindow where
  start_time : String
  end_time : String
  deriving DecidableEq, Repr

/-- `DeliveryStop` from `src/frontend/src/types/index.ts`. -/
structure DeliveryStop where
  address : String
  time_window : Option TimeWindow
  priority : Option ℤ
  deriving DecidableEq, Repr

/-- `DeliveryRequest` from `src/frontend/src/types/index.ts`. -/
structure DeliveryRequest where
  stops : List DeliveryStop
  vehicle : VehicleInfo
  start_location : String
  avoid_peak_hours : Option Bool
  prioritize_safety : Option Bool
  deriving DecidableEq, Repr

/-- `RouteSegment` from `src/frontend/src/types/index.ts`. -/
structure RouteSegment where
  from_address : String
  to_address : String
  from_coords : Coordinates
  to_coords : Coordinates
  distance_km : ℚ
  estimated_time_min : ℚ
  risk_score : ℚ
  deriving DecidableEq, Repr

/-- `OptimizedRoute` from `src/frontend/src/types/index.ts`
(`route_geometry` is an optional array of `[lng, lat]` pairs). -/
structure OptimizedRoute where
  route_id : String
  ordered_stops : List String
  coordinates : List Coordinates
  segments : List RouteSegment
  total_distance_km : ℚ
  total_time_min : ℚ
  total_risk_score : ℚ
  route_quality_score : ℚ
  route_geometry : Option (List (List ℚ))
  deriving DecidableEq, Repr

/-- The `cost_breakdown` record nested in `CostPrediction`
(`src/frontend/src/types/index.ts`). -/
structure CostBreakdown where
  estimated_fuel_liters : ℚ
  base_fuel_cost : ℚ
  traffic_penalty : ℚ
  idle_cost : ℚ
  stop_penalty : ℚ
  deriving DecidableEq, Repr

/-- `CostPrediction` from `src/frontend/src/types/index.ts`. -/
structure CostPrediction where
  predicted_cost_usd : ℚ
  confidence_lower : ℚ
  confidence_upper : ℚ
  cost_breakdown : CostBreakdown
  deriving DecidableEq, Repr

/-- The `'none' | 'low' | 'medium' | 'high' | 'critical'` string-literal union
used by `RiskAnalysis.risk_level`. -/
inductive RiskLevelLit
  | none
  | low
  | medium
  | high
  | critical
  deriving DecidableEq, Repr

/-- A value of the TypeScript type `any` (structure unknown to the embedding;
`RiskAnalysis.risk_segments` is typed `any[]`). -/
structure JsAny where
  repr : String
  deriving DecidableEq, Repr

/-- `RiskAnalysis` from `src/frontend/src/types/index.ts`
(`zones_by_type : Record<string, number>` is modelled as an association list). -/
structure RiskAnalysis where
  total_risk_score : ℚ
  risk_zones_encountered : List String
  risk_segments : List JsAny
  risk_level : RiskLevelLit
  zones_by_type : List (String × ℚ)
  deriving DecidableEq, Repr

/-- `RouteExplanation` from `src/frontend/src/types/index.ts`. -/
structure RouteExplanation where
  summary : String
  reasoning : String
  trade_offs : String
  recommendations : String
  deriving DecidableEq, Repr

/-- `AlternativeRoute` from `src/frontend/src/types/index.ts`. -/
structure AlternativeRoute where
  route : OptimizedRoute
  cost : CostPrediction
  recommendation : String
  trade_offs : String
  deriving DecidableEq, Repr

/-- `RouteResponse` from `src/frontend/src/types/index.ts`. -/
structure RouteResponse where
  primary_route : OptimizedRoute
  cost_prediction : CostPrediction
  risk_analysis : RiskAnalysis
  alternatives : List AlternativeRoute
  explanation : Option RouteExplanation
  processing_time_ms : ℚ
  deriving DecidableEq, Repr

/-- The `'construction' | 'accident' | 'congestion' | 'crime'` string-literal
union used by `RiskZone.zone_type`. -/
inductive ZoneType
  | construction
  | accident
  | congestion
  | crime
  deriving DecidableEq, Repr

/-- The runtime string value carried by a `ZoneType` literal. -/
def zoneTypeStr : ZoneType → String
  | .construction => "construction"
  | .accident => "accident"
  | .congestion => "congestion"
  | .crime => "crime"

/-- `RiskZone` from `src/frontend/src/types/index.ts`. -/
structure RiskZone where
  name : String
  center : Coordinates
  radius_km : ℚ
  risk_level : ℚ
  zone_type : ZoneType
  deriving DecidableEq, Repr

/-- Modelled from the spec: the shape §6 gives for the optimize response,
`{primary_route, cost_prediction, risk_analysis, alternatives[], explanation?,
processing_time_ms}`, with each field of the corresponding §3 entity type.
Used to compare the spec's response shape with the `RouteResponse` record of
the source. -/
structure SpecRouteResponse where
  primary_route : OptimizedRoute
  cost_prediction : CostPrediction
  risk_analysis : RiskAnalysis
  alternatives : List AlternativeRoute
  explanation : Option RouteExplanation
  processing_time_ms : ℚ
  deriving DecidableEq, Repr

/-- Field-for-field reading of a source `RouteResponse` as the spec's response
shape. -/
def RouteResponse.toSpec (r : RouteResponse) : SpecRouteResponse :=
  { primary_route := r.primary_route
    cost_prediction := r.cost_prediction
    risk_analysis := r.risk_analysis
    alternatives := r.alternatives
    explanation := r.explanation
    processing_time_ms := r.processing_time_ms }

/-- Field-for-field reading of the spec's response shape as a source
`RouteResponse`. -/
def SpecRouteResponse.toResponse (s : SpecRouteResponse) : RouteResponse :=
  { primary_route := s.primary_route
    cost_prediction := s.cost_prediction
    risk_analysis := s.risk_analysis
    alternatives := s.alternatives
    explanation := s.explanation
    processing_time_ms := s.processing_time_ms }

/-- State held by either `DeliveryForm` variant in
`src/frontend/src/components/Logo.tsx` (react `useState` hooks). -/
structure FormState where
  startLocation : String
  stops : List DeliveryStop
  vehicleType : String
  fuelEfficiency : ℚ
  avoidPeakHours : Bool
  prioritizeSafety : Bool
  deriving DecidableEq, Repr

/-- One user interaction with the stops list of a `DeliveryForm`. -/
inductive FormOp
  | add
  | remove (index : ℕ)
  | update (index : ℕ) (addr : String)
  deriving DecidableEq, Repr

namespace DeliveryForm1

/-- Initial `stops` state of the first `DeliveryForm` variant in
`src/frontend/src/components/Logo.tsx`. -/
def initialStops : List DeliveryStop :=
  [{ address := "Latifabad, Hyderabad, Sindh, Pakistan", time_window := none,
     priority := some 1 }]

/-- `addStop` of the first `DeliveryForm` variant. -/
def addStop (stops : List DeliveryStop) : List DeliveryStop :=
  stops ++ [{ address := "", time_window := none, priority := some 1 }]

/-- `removeStop` of the first `DeliveryForm` variant:
`stops.filter((_, i) => i !== index)`, guarded by `stops.length > 1`. -/
def removeStop (index : ℕ) (stops : List DeliveryStop) : List DeliveryStop :=
  if stops.length > 1 then
    (stops.enum.filter (fun p => p.1 != index)).map Prod.snd
  else stops

/-- `updateStop` of the first `DeliveryForm` variant: rewrite the address of
the stop at `index`. -/
def updateStop (index : ℕ) (addr : String) (stops : List DeliveryStop) :
    List DeliveryStop :=
  List.modify (fun s => { s with address := addr }) index stops

/-- Apply one interaction to the stops list. -/
def applyOp (stops : List DeliveryStop) : FormOp → List DeliveryStop
  | .add => addStop stops
  | .remove i => removeStop i stops
  | .update i a => updateStop i a stops

/-- Run a sequence of interactions from a given stops list. -/
def runOps (init : List DeliveryStop) (ops : List FormOp) : List DeliveryStop :=
  ops.foldl applyOp init

/-- `handleSubmit` of the first `DeliveryForm` variant: the `DeliveryRequest`
it hands to `onSubmit`. -/
def handleSubmit (st : FormState) : DeliveryRequest :=
  { stops := st.stops
    vehicle := { vehicle_type := st.vehicleType,
                 fuel_efficiency_mpg := st.fuelEfficiency,
                 fuel_price_per_gallon := none }
    start_location := st.startLocation
    avoid_peak_hours := some st.avoidPeakHours
    prioritize_safety := some st.prioritizeSafety }

end DeliveryForm1

namespace DeliveryForm2

/-- Initial `stops` state of the second `DeliveryForm` variant in
`src/frontend/src/components/Logo.tsx`. -/
def initialStops : List DeliveryStop :=
  [{ address := "Latifabad, Hyderabad, Sindh, Pakistan", time_window := none,
     priority := some 1 }]

/-- `addStop` of the second `DeliveryForm` variant. -/
def addStop (stops : List DeliveryStop) : List DeliveryStop :=
  stops ++ [{ address := "", time_window := none, priority := some 1 }]

/-- `removeStop` of the second `DeliveryForm` variant. -/
def removeStop (index : ℕ) (stops : List DeliveryStop) : List DeliveryStop :=
  if stops.length > 1 then
    (stops.enum.filter (fun p => p.1 != index)).map Prod.snd
  else stops

/-- `updateStop` of the second `DeliveryForm` variant. -/
def updateStop (index : ℕ) (addr : String) (stops : List DeliveryStop) :
    List DeliveryStop :=
  List.modify (fun s => { s with address := addr }) index stops

/-- Apply one interaction to the stops list. -/
def applyOp (stops : List DeliveryStop) : FormOp → List DeliveryStop
  | .add => addStop stops
  | .remove i => removeStop i stops
  | .update i a => updateStop i a stops

/-- Run a sequence of interactions from a given stops list. -/
def runOps (init : List DeliveryStop) (ops : List FormOp) : List DeliveryStop :=
  ops.foldl applyOp init

/-- `handleSubmit` of the second `DeliveryForm` variant. -/
def handleSubmit (st : FormState) : DeliveryRequest :=
  { stops := st.stops
    vehicle := { vehicle_type := st.vehicleType,
                 fuel_efficiency_mpg := st.fuelEfficiency,
                 fuel_price_per_gallon := none }
    start_location := st.startLocation
    avoid_peak_hours := some st.avoidPeakHours
    prioritize_safety := some st.prioritizeSafety }

end DeliveryForm2

/-- Does `q` occur as a contiguous block of `s`? -/
def listHasBlock (q : List Char) : List Char → Bool
  | [] => q.isEmpty
  | c :: rest => q.isPrefixOf (c :: rest) || listHasBlock q rest

/-- JavaScript `String.prototype.includes`: substring containment. -/
def jsIncludes (s q : String) : Bool :=
  listHasBlock q.data s.data

/-- JavaScript `Array.prototype.slice(a, b)` for `0 ≤ a ≤ b`. -/
def jsSlice (l : List α) (a b : ℕ) : List α :=
  (l.drop a).take (b - a)

/-- JavaScript `Array.prototype.join(sep)`. -/
def jsJoin (sep : String) : List String → String
  | [] => ""
  | [x] => x
  | x :: xs => x ++ sep ++ jsJoin sep xs

namespace RiskZonesPage

/-- `ZONES_PER_PAGE` from `src/frontend/src/pages/RiskZones.tsx`. -/
def ZONES_PER_PAGE : ℕ := 9

/-- The predicate of the `filteredZones` filter in
`src/frontend/src/pages/RiskZones.tsx`: the zone matches the selected type
chip (when one is selected) and, when the search query is non-empty, the
lower-cased query occurs in the lower-cased zone name or zone type. -/
def zoneMatches (selectedType : Option String) (searchQuery : String)
    (z : RiskZone) : Bool :=
  (match selectedType with
   | some t => zoneTypeStr z.zone_type == t
   | none => true) &&
  (if searchQuery == "" then true
   else
     jsIncludes (z.name.toLower) (searchQuery.toLower) ||
     jsIncludes ((zoneTypeStr z.zone_type).toLower) (searchQuery.toLower))

/-- `filteredZones` from `src/frontend/src/pages/RiskZones.tsx`. -/
def filteredZones (zones : List RiskZone) (selectedType : Option String)
    (searchQuery : String) : List RiskZone :=
  zones.filter (zoneMatches selectedType searchQuery)

/-- `totalPages = Math.ceil(filteredZones.length / ZONES_PER_PAGE)`. -/
def totalPages (zones : List RiskZone) (selectedType : Option String)
    (searchQuery : String) : ℕ :=
  ((filteredZones zones selectedType searchQuery).length + ZONES_PER_PAGE - 1) /
    ZONES_PER_PAGE

/-- `paginatedZones = filteredZones.slice((currentPage-1)*9, currentPage*9)`
(the component keeps `currentPage ≥ 1`). -/
def paginatedZones (zones : List RiskZone) (selectedType : Option String)
    (searchQuery : String) (currentPage : ℕ) : List RiskZone :=
  jsSlice (filteredZones zones selectedType searchQuery)
    ((currentPage - 1) * ZONES_PER_PAGE) (currentPage * ZONES_PER_PAGE)

end RiskZonesPage

namespace RouteComparison

/-- `getAlternativeName` from the `RouteComparison` component in
`src/frontend/src/components/CostDashboard.tsx` (`names[index]` is undefined,
hence falsy, for `index ≥ 3`; the listed names are non-empty strings). -/
def getAlternativeName (index : ℕ) : String :=
  ["Shortest Distance", "Safest Route", "Off-Peak Schedule"].getD index
    ("Alternative " ++ toString (index + 1))

/-- The heading rendered for the alternative at position `index` in the
alternatives list (`CostDashboard.tsx`, the `alternatives.map` body). -/
def altHeading (alt : AlternativeRoute) (index : ℕ) : String :=
  if alt.route.ordered_stops.length > 0 then getAlternativeName index
  else alt.recommendation

/-- All headings rendered for an alternatives list, in order. -/
def renderedHeadings (alts : List AlternativeRoute) : List String :=
  alts.enum.map (fun p => altHeading p.2 p.1)

end RouteComparison

namespace Optimizer

/-- One entry of a FastAPI/Pydantic validation-error `detail` array, as read
by `handleOptimize` in `src/frontend/src/pages/Optimizer.tsx`: an optional
location path `loc` and a message `msg`. -/
structure ValidationEntry where
  loc : Option (List String)
  msg : String
  deriving DecidableEq, Repr

/-- The `detail` payload of a rejected optimize call: an array of validation
errors, a string, or some other (truthy) JSON value rendered by
`JSON.stringify`. -/
inductive JsDetail
  | arr (errs : List ValidationEntry)
  | str (s : String)
  | othr (json : String)
  deriving DecidableEq, Repr

/-- JavaScript truthiness of `err.response?.data?.detail` as used by the
guard `if (err.response?.data?.detail)`: absent is falsy, an array is truthy,
a string is truthy exactly when non-empty (`othr` stands only for truthy
non-string, non-array values). -/
def detailTruthy : Option JsDetail → Bool
  | none => false
  | some (.arr _) => true
  | some (.str s) => !(s == "")
  | some (.othr _) => true

/-- `` `${e.loc?.join(' → ') || 'Field'}: ${e.msg}` `` for one validation
entry (an absent `loc` and an empty join are both falsy). -/
def fmtValidationEntry (e : ValidationEntry) : String :=
  (match e.loc with
   | none => "Field"
   | some l => if jsJoin " → " l == "" then "Field" else jsJoin " → " l) ++
  ": " ++ e.msg

/-- The fallback error message of `handleOptimize`. -/
def defaultErrMsg : String :=
  "Failed to optimize route. Please check your inputs and try again."

/-- The `errorMessage` computed by the catch block of `handleOptimize` in
`src/frontend/src/pages/Optimizer.tsx` from the rejection's
`err.response?.data?.detail` and `err.message`. -/
def computeErrorMessage (detail : Option JsDetail) (message : Option String) :
    String :=
  if detailTruthy detail then
    match detail with
    | some (.arr errs) => jsJoin "; " (errs.map fmtValidationEntry)
    | some (.str s) => s
    | some (.othr j) => j
    | none => defaultErrMsg
  else
    match message with
    | some m => if m == "" then defaultErrMsg else m
    | none => defaultErrMsg

/-- The `result`/`error`/`isLoading` state of the Optimizer page. -/
structure OptimizerState where
  result : Option RouteResponse
  error : Option String
  isLoading : Bool
  deriving DecidableEq, Repr

/-- State left by `handleOptimize` when the optimize call rejects: `result`
stays `null`, `error` is set to the computed message, `isLoading` is reset. -/
def handleOptimizeFailure (detail : Option JsDetail) (message : Option String) :
    OptimizerState :=
  { result := none
    error := some (computeErrorMessage detail message)
    isLoading := false }

end Optimizer

/-- A concrete alternative route used to witness the heading theorem. -/
def sampleAlternative : AlternativeRoute :=
  { route := { route_id := "r1", ordered_stops := ["Depot"], coordinates := [],
               segments := [], total_distance_km := 0, total_time_min := 0,
               total_risk_score := 0, route_quality_score := 0,
               route_geometry := none }
    cost := { predicted_cost_usd := 0, confidence_lower := 0,
              confidence_upper := 0,
              cost_breakdown := { estimated_fuel_liters := 0, base_fuel_cost := 0,
                                  traffic_penalty := 0, idle_cost := 0,
                                  stop_penalty := 0 } }
    recommendation := "rec"
    trade_offs := "t" }

/-- A concrete zone list used to witness the pagination theorem. -/
def sampleZones : List RiskZone :=
  [{ name := "Latifabad corridor", center := { lat := 25, lng := 68 },
     radius_km := 1, risk_level := 5, zone_type := .congestion }]

/-- Modelled from the spec: the backend Route Solver (§4.3,
`backend/services/route_optimizer.py`) is not under `src/`.  Construction
heuristic of the solver state machine: from the current stop, repeatedly
visit the unvisited stop of smallest edge weight, earliest index on ties
(the spec's deterministic lexicographic fallback), ending when no stop
remains. -/
def tourAux (w : ℕ → ℕ → ℚ) (remaining : List ℕ) (current : ℕ) : List ℕ :=
  match h : remaining.argmin (w current) with
  | none => [current]
  | some nxt => current :: tourAux w (remaining.erase nxt) nxt
termination_by remaining.length
decreasing_by
  have hm : nxt ∈ remaining := List.argmin_mem h
  have hp : 0 < remaining.length := List.length_pos_of_mem hm
  rw [List.length_erase_of_mem hm]
  omega

/-- Modelled from the spec: §4.3's output contract — an ordering of all stop
indices `0 .. n-1` starting at the depot, index `0`. -/
def solveTour (w : ℕ → ℕ → ℚ) (n : ℕ) : List ℕ :=
  tourAux w ((List.range n).drop 1) 0

/-- Modelled from the spec: the index-level skeleton of §3's
`OptimizedRoute` — the ordered stop sequence and its per-edge segments. -/
structure ModelRoute where
  ordered_stops : List ℕ
  segments : List (ℕ × ℕ)
  deriving DecidableEq, Repr

/-- Modelled from the spec: the primary route assembled from the solved
tour; the tour closes back at the depot, so there is one segment per stop
(§3: segment count = stop count). -/
def optimizeRoute (w : ℕ → ℕ → ℚ) (n : ℕ) : ModelRoute :=
  let tour := solveTour w n
  { ordered_stops := tour, segments := tour.zip (tour.rotate 1) }

/-- Modelled from the spec: §4.4's cost-model feature vector
`{total_distance, stop_count, average_speed, traffic_factor,
vehicle_efficiency, idle_minutes}` together with the fuel unit price. -/
structure CostFeatures where
  total_distance : ℚ
  stop_count : ℕ
  average_speed : ℚ
  traffic_factor : ℚ
  vehicle_efficiency : ℚ
  idle_minutes : ℚ
  unit_price : ℚ
  deriving DecidableEq, Repr

/-- Modelled from the spec: the configured idle-cost rate per minute (§4.4,
`idle cost = idle_minutes × idle rate`). -/
def idleRatePerMin : ℚ := 1 / 2

/-- Modelled from the spec: the fixed per-stop cost (§4.4,
`stop penalty = fixed cost × stop_count`). -/
def stopFixedCost : ℚ := 3 / 10

/-- Modelled from the spec: the interval half-width derived from the trained
model's estimator variance, realised as the spread (max − min) of the
ensemble members' predictions (§4.4 "ensemble prediction spread"). -/
def ensembleSpread : List ℚ → ℚ
  | [] => 0
  | x :: t => t.foldl max x - t.foldl min x

/-- Modelled from the spec: §4.4's Cost Predictor — breakdown components
computed from the feature vector, point estimate equal to their sum, and a
confidence interval `point ± spread`. -/
def predictCost (f : CostFeatures) (ensemble : List ℚ) : CostPrediction :=
  let fuel_liters := f.total_distance / f.vehicle_efficiency
  let base_fuel := fuel_liters * f.unit_price
  let traffic_pen := base_fuel * (f.traffic_factor - 1)
  let idle := f.idle_minutes * idleRatePerMin
  let stop_pen := stopFixedCost * f.stop_count
  let predicted := base_fuel + traffic_pen + idle + stop_pen
  let spread := ensembleSpread ensemble
  { predicted_cost_usd := predicted
    confidence_lower := predicted - spread
    confidence_upper := predicted + spread
    cost_breakdown := { estimated_fuel_liters := fuel_liters
                        base_fuel_cost := base_fuel
                        traffic_penalty := traffic_pen
                        idle_cost := idle
                        stop_penalty := stop_pen } }

/-- The first character produced by `natChars` is a digit, in particular
neither `'+'` nor `'S'`. -/
theorem natChars_cons (n : ℕ) :
    ∃ c cs, natChars n = c :: cs ∧ c ≠ '+' ∧ c ≠ 'S' := by
  induction n using Nat.strong_induction_on with
  | _ n ih =>
    rw [natChars]
    split
    · next h =>
      interval_cases n <;> exact ⟨_, _, rfl, by decide, by decide⟩
    · next h =>
      obtain ⟨c, cs, hc, h1, h2⟩ := ih (n / 10) (Nat.div_lt_self (by omega) (by omega))
      exact ⟨c, cs ++ [Char.ofNat (48 + n % 10)], by rw [hc]; rfl, h1, h2⟩

/-- Claim C1: on the integer 0–10 scale, `getRiskLabel` (RiskZones page) and
`getRiskColor` (RouteMap) classify every value by the documented threshold
table, but `getRiskColor` of RouteComparison does not: at risk value 2 the
table (and the repository's own README) gives the low bucket, whose colour
class is `text-success`, while the code returns `text-warning`. -/
theorem c1_risk_threshold_table :
    (∀ v : Fin 11,
      RiskZonesPage.getRiskLabel ((v : ℕ) : ℚ) = bucketLabel (specRiskBucket v) ∧
      RouteMapComp.getRiskColor ((v : ℕ) : ℚ) = bucketHex (specRiskBucket v)) ∧
    RouteComparison.getRiskColor 2 = "text-warning" ∧
    bucketTextClass (specRiskBucket 2) = "text-success" ∧
    "text-warning" ≠ "text-success" := by
  refine ⟨?_, by decide, by decide, by decide⟩
  decide

/-- Data of `getDifferenceText` in the non-`Same` branch: an optional `'+'`,
the digits before the point, `'.'`, the digit after the point, the unit. -/
theorem diffText_data (p a : ℚ) (u : String) (b : Bool)
    (h : ¬ |a - p| < 1 / 100) :
    (RouteComparison.getDifferenceText p a u b).data =
      (if 0 < a - p then ['+'] else []) ++
      (natChars ((⌊|a - p| * 10 + 1 / 2⌋).toNat / 10) ++ ['.'] ++
        natChars ((⌊|a - p| * 10 + 1 / 2⌋).toNat % 10) ++ u.data) := by
  simp only [RouteComparison.getDifferenceText, toFixed1, if_neg h,
    Bool.if_true_left, String.data_append]
  cases b <;> simp [apply_ite String.data, String.data_append, List.append_assoc]

/-- Claim C8: `getDifferenceText` ignores its `lowerIsBetter` argument; it
returns `"Same"` exactly when the absolute difference is below `0.01`, and
otherwise its first character is `'+'` exactly when the alternative value
exceeds the primary one. -/
theorem c8_getDifferenceText_ignores_lowerIsBetter (p a : ℚ) (u : String) (b : Bool) :
    RouteComparison.getDifferenceText p a u true =
      RouteComparison.getDifferenceText p a u false ∧
    (RouteComparison.getDifferenceText p a u b = "Same" ↔ |a - p| < 1 / 100) ∧
    ((RouteComparison.getDifferenceText p a u b).data.head? = some '+' ↔
      ¬|a - p| < 1 / 100 ∧ p < a) := by
  by_cases hlt : |a - p| < 1 / 100
  · have hs : ∀ b' : Bool, RouteComparison.getDifferenceText p a u b' = "Same" := fun b' => by
      simp only [RouteComparison.getDifferenceText]
      rw [if_pos hlt]
    refine ⟨(hs true).trans (hs false).symm, by rw [hs b]; exact iff_of_true rfl hlt, ?_⟩
    rw [hs b]
    constructor
    · intro hh
      exact absurd hh (by decide)
    · rintro ⟨h, -⟩
      exact absurd hlt h
  · obtain ⟨c, cs, hc, hplus, hS⟩ := natChars_cons ((⌊|a - p| * 10 + 1 / 2⌋).toNat / 10)
    have hdata := diffText_data p a u b hlt
    rw [hc] at hdata
    refine ⟨?_, ?_, ?_⟩
    · have h1 := diffText_data p a u true hlt
      have h2 := diffText_data p a u false hlt
      exact String.ext (h1.trans h2.symm)
    · rw [iff_false_intro hlt, iff_false]
      intro heq
      have hd := congrArg String.data heq
      rw [hdata] at hd
      by_cases hpos : 0 < a - p
      · rw [if_pos hpos] at hd
        simp only [List.cons_append, List.nil_append] at hd
        have hPS : '+' = 'S' := by
          have := congrArg (List.head? ·) hd
          simpa using this
        exact absurd hPS (by decide)
      · rw [if_neg hpos] at hd
        simp only [List.nil_append, List.cons_append] at hd
        have hcS : c = 'S' := by
          have := congrArg (List.head? ·) hd
          simpa using this
        exact hS hcS
    · rw [hdata]
      by_cases hpos : 0 < a - p
      · rw [if_pos hpos]
        simp only [List.cons_append, List.head?_cons]
        constructor
        · intro _; exact ⟨hlt, by linarith⟩
        · intro _; trivial
      · rw [if_neg hpos]
        simp only [List.nil_append, List.cons_append, List.head?_cons]
        constructor
        · intro hcp
          exact absurd (Option.some.inj hcp) hplus
        · rintro ⟨-, hpa⟩
          exact absurd (by linarith : 0 < a - p) hpos

/-- When every index in an `enumFrom` block exceeds `i`, filtering out index
`i` keeps everything. -/
theorem filter_enumFrom_of_lt (l : List α) (k i : ℕ) (h : i < k) :
    (l.enumFrom k).filter (fun p => p.1 != i) = l.enumFrom k := by
  induction l generalizing k with
  | nil => rfl
  | cons a t ih =>
    rw [List.enumFrom_cons, List.filter_cons]
    have hk : ((k, a).1 != i) = true := by simp; omega
    rw [if_pos hk, ih (k + 1) (by omega)]

/-- Filtering one index out of an enumerated list removes at most one
element. -/
theorem length_filter_enumFrom (l : List α) (k i : ℕ) :
    l.length - 1 ≤ (((l.enumFrom k).filter (fun p => p.1 != i)).map Prod.snd).length := by
  induction l generalizing k with
  | nil => simp
  | cons a t ih =>
    rw [List.enumFrom_cons, List.filter_cons]
    by_cases hk : k = i
    · have hb : ((k, a).1 != i) = false := by simp [hk]
      rw [if_neg (by simp [hb])]
      rw [filter_enumFrom_of_lt t (k + 1) i (by omega)]
      simp
    · have hb : ((k, a).1 != i) = true := by simp [hk]
      rw [if_pos hb]
      have := ih (k + 1)
      simp only [List.map_cons, List.length_cons, List.length_map] at *
      omega

/-- `removeStop` of the first form variant never empties a non-empty stops
list. -/
theorem form1_length_removeStop (i : ℕ) (stops : List DeliveryStop) :
    min 1 stops.length ≤ (DeliveryForm1.removeStop i stops).length := by
  unfold DeliveryForm1.removeStop
  split
  · next h =>
    have := length_filter_enumFrom stops 0 i
    rw [show stops.enumFrom 0 = stops.enum from rfl] at this
    omega
  · omega

/-- Every single interaction of the first form variant preserves a non-empty
stops list. -/
theorem form1_length_applyOp (stops : List DeliveryStop) (op : FormOp)
    (h : 1 ≤ stops.length) : 1 ≤ (DeliveryForm1.applyOp stops op).length := by
  cases op with
  | add => simp [DeliveryForm1.applyOp, DeliveryForm1.addStop]
  | remove i =>
    have := form1_length_removeStop i stops
    simp only [DeliveryForm1.applyOp]
    omega
  | update i a =>
    simp only [DeliveryForm1.applyOp, DeliveryForm1.updateStop, List.length_modify]
    exact h

/-- Any interaction sequence of the first form variant preserves a non-empty
stops list. -/
theorem form1_length_runOps (ops : List FormOp) :
    ∀ stops : List DeliveryStop, 1 ≤ stops.length →
      1 ≤ (DeliveryForm1.runOps stops ops).length := by
  induction ops with
  | nil => intro stops h; exact h
  | cons op rest ih =>
    intro stops h
    exact ih _ (form1_length_applyOp stops op h)

/-- `removeStop` of the second form variant never empties a non-empty stops
list. -/
theorem form2_length_removeStop (i : ℕ) (stops : List DeliveryStop) :
    min 1 stops.length ≤ (DeliveryForm2.removeStop i stops).length := by
  unfold DeliveryForm2.removeStop
  split
  · next h =>
    have := length_filter_enumFrom stops 0 i
    rw [show stops.enumFrom 0 = stops.enum from rfl] at this
    omega
  · omega

/-- Every single interaction of the second form variant preserves a non-empty
stops list. -/
theorem form2_length_applyOp (stops : List DeliveryStop) (op : FormOp)
    (h : 1 ≤ stops.length) : 1 ≤ (DeliveryForm2.applyOp stops op).length := by
  cases op with
  | add => simp [DeliveryForm2.applyOp, DeliveryForm2.addStop]
  | remove i =>
    have := form2_length_removeStop i stops
    simp only [DeliveryForm2.applyOp]
    omega
  | update i a =>
    simp only [DeliveryForm2.applyOp, DeliveryForm2.updateStop, List.length_modify]
    exact h

/-- Any interaction sequence of the second form variant preserves a non-empty
stops list. -/
theorem form2_length_runOps (ops : List FormOp) :
    ∀ stops : List DeliveryStop, 1 ≤ stops.length →
      1 ≤ (DeliveryForm2.runOps stops ops).length := by
  induction ops with
  | nil => intro stops h; exact h
  | cons op rest ih =>
    intro stops h
    exact ih _ (form2_length_applyOp stops op h)

/-- Claim C4: from the initial one-stop state, every sequence of `addStop`,
`removeStop` and `updateStop` interactions leaves at least one stop in either
`DeliveryForm` variant, so every submitted `DeliveryRequest` carries at least
one delivery stop besides the depot. -/
theorem c4_form_stops_never_empty (ops : List FormOp) (sl vt : String)
    (fe : ℚ) (ap ps : Bool) :
    1 ≤ (DeliveryForm1.handleSubmit
          ⟨sl, DeliveryForm1.runOps DeliveryForm1.initialStops ops, vt, fe, ap, ps⟩).stops.length ∧
    1 ≤ (DeliveryForm2.handleSubmit
          ⟨sl, DeliveryForm2.runOps DeliveryForm2.initialStops ops, vt, fe, ap, ps⟩).stops.length :=
  ⟨form1_length_runOps ops DeliveryForm1.initialStops (by decide),
   form2_length_runOps ops DeliveryForm2.initialStops (by decide)⟩

/-- Claim C10: on identical form state the two `DeliveryForm` variants submit
identical `DeliveryRequest` records. -/
theorem c10_forms_submit_equivalent (st : FormState) :
    DeliveryForm1.handleSubmit st = DeliveryForm2.handleSubmit st := rfl

/-- Claim C6: the optimize response record of the source
(`RouteResponse`) consists of exactly the fields the spec lists —
`primary_route`, `cost_prediction`, `risk_analysis`, `alternatives`, optional
`explanation`, `processing_time_ms` — with the entity types of the data
model: the field-for-field translations between it and the spec shape are
mutually inverse. -/
theorem c6_response_shape_matches_spec :
    (∀ r : RouteResponse, (r.toSpec).toResponse = r) ∧
    (∀ s : SpecRouteResponse, (s.toResponse).toSpec = s) :=
  ⟨fun _ => rfl, fun _ => rfl⟩

/-- Concatenating successive 9-element chunks of a list restores the list,
provided the chunk count covers its length. -/
theorem flatten_nine_chunks (k : ℕ) :
    ∀ l : List α, l.length ≤ k * 9 →
      ((List.range k).map (fun i => (l.drop (i * 9)).take 9)).flatten = l := by
  induction k with
  | zero =>
    intro l h
    have hl : l = [] := by cases l <;> simp_all
    simp [hl]
  | succ k ih =>
    intro l h
    rw [List.range_succ_eq_map]
    simp only [List.map_cons, List.map_map]
    have hmap : ∀ i ∈ List.range k,
        ((fun i => (l.drop (i * 9)).take 9) ∘ (· + 1)) i =
          (fun i => ((l.drop 9).drop (i * 9)).take 9) i := by
      intro i _
      simp only [Function.comp_apply, List.drop_drop]
      have h9 : (i + 1) * 9 = 9 + i * 9 := by ring
      rw [h9]
    rw [List.map_congr_left hmap]
    rw [List.flatten_cons, ih (l.drop 9) (by simp only [List.length_drop]; omega)]
    simp [List.take_append_drop]

/-- Claim C9: with at least page 1 selected, the RiskZones page shows at most
9 zones, each shown zone passes the active type filter and case-insensitive
search, and pages 1 through `totalPages` concatenate to exactly the filtered
list. -/
theorem c9_riskzones_pagination (zones : List RiskZone) (sel : Option String)
    (q : String) (page : ℕ) (hp : 1 ≤ page) :
    (RiskZonesPage.paginatedZones zones sel q page).length ≤ 9 ∧
    (∀ z ∈ RiskZonesPage.paginatedZones zones sel q page,
      RiskZonesPage.zoneMatches sel q z = true) ∧
    ((List.range (RiskZonesPage.totalPages zones sel q)).map
        (fun i => RiskZonesPage.paginatedZones zones sel q (i + 1))).flatten =
      RiskZonesPage.filteredZones zones sel q := by
  refine ⟨?_, ?_, ?_⟩
  · obtain ⟨p, rfl⟩ : ∃ p, page = p + 1 := ⟨page - 1, by omega⟩
    simp only [RiskZonesPage.paginatedZones, jsSlice, RiskZonesPage.ZONES_PER_PAGE]
    have h9 : (p + 1) * 9 - (p + 1 - 1) * 9 ≤ 9 := by
      have : (p + 1) * 9 = p * 9 + 9 := by ring
      simp only [Nat.add_sub_cancel]
      omega
    exact le_trans (List.length_take_le _ _) h9
  · intro z hz
    simp only [RiskZonesPage.paginatedZones, jsSlice] at hz
    have hz1 := List.mem_of_mem_take hz
    have hz2 := List.mem_of_mem_drop hz1
    exact (List.mem_filter.mp hz2).2
  · have hmap : ∀ i ∈ List.range (RiskZonesPage.totalPages zones sel q),
        (fun i => RiskZonesPage.paginatedZones zones sel q (i + 1)) i =
          (fun i => ((RiskZonesPage.filteredZones zones sel q).drop (i * 9)).take 9) i := by
      intro i _
      simp only [RiskZonesPage.paginatedZones, jsSlice, RiskZonesPage.ZONES_PER_PAGE,
        Nat.add_sub_cancel]
      have h9 : (i + 1) * 9 - i * 9 = 9 := by
        have : (i + 1) * 9 = i * 9 + 9 := by ring
        omega
      rw [h9]
    rw [List.map_congr_left hmap]
    apply flatten_nine_chunks
    simp only [RiskZonesPage.totalPages, RiskZonesPage.ZONES_PER_PAGE]
    have := Nat.div_add_mod ((RiskZonesPage.filteredZones zones sel q).length + 8) 9
    omega

/-- Closed instance of the pagination theorem at a concrete zone list. -/
theorem c9_riskzones_pagination_witness :
    (RiskZonesPage.paginatedZones sampleZones none "" 1).length ≤ 9 :=
  (c9_riskzones_pagination sampleZones none "" 1 (by decide)).1

/-- Claim C7: an alternative whose route has at least one ordered stop is
headed by the canonical policy name for its position in the list — `Shortest
Distance` at index 0, `Safest Route` at index 1, `Off-Peak Schedule` at
index 2. -/
theorem c7_alternative_headings (alts : List AlternativeRoute) (i : ℕ)
    (hi : i < alts.length)
    (hst : 0 < ((alts.get ⟨i, hi⟩).route.ordered_stops).length) :
    (RouteComparison.renderedHeadings alts)[i]? =
      some (RouteComparison.getAlternativeName i) ∧
    RouteComparison.getAlternativeName 0 = "Shortest Distance" ∧
    RouteComparison.getAlternativeName 1 = "Safest Route" ∧
    RouteComparison.getAlternativeName 2 = "Off-Peak Schedule" := by
  refine ⟨?_, rfl, rfl, rfl⟩
  simp only [RouteComparison.renderedHeadings, List.getElem?_map, List.getElem?_enum]
  rw [List.getElem?_eq_getElem hi]
  simp only [Option.map_some']
  rw [List.get_eq_getElem] at hst
  simp [RouteComparison.altHeading, hst]

/-- Closed instance of the heading theorem at a concrete one-element list. -/
theorem c7_alternative_headings_witness :
    (RouteComparison.renderedHeadings [sampleAlternative])[0]? =
      some "Shortest Distance" :=
  (c7_alternative_headings [sampleAlternative] 0 (by decide) (by decide)).1

/-- A concatenation of strings is empty only if both parts are. -/
theorem str_append_eq_empty {a b : String} (h : a ++ b = "") :
    a = "" ∧ b = "" := by
  have hd := congrArg String.data h
  rw [String.data_append] at hd
  obtain ⟨h1, h2⟩ := List.append_eq_nil.mp hd
  exact ⟨String.ext h1, String.ext h2⟩

/-- A formatted validation entry always contains `": "`, hence is never
empty. -/
theorem fmtValidationEntry_ne_empty (e : Optimizer.ValidationEntry) :
    Optimizer.fmtValidationEntry e ≠ "" := by
  intro h
  obtain ⟨h1, -⟩ := str_append_eq_empty h
  obtain ⟨-, h2⟩ := str_append_eq_empty h1
  exact absurd h2 (by decide)

/-- Joining formatted validation entries of a non-empty list never yields the
empty string. -/
theorem jsJoin_fmt_ne_empty (e : Optimizer.ValidationEntry)
    (rest : List Optimizer.ValidationEntry) :
    jsJoin "; " ((e :: rest).map Optimizer.fmtValidationEntry) ≠ "" := by
  cases rest with
  | nil => exact fmtValidationEntry_ne_empty e
  | cons r rs =>
    intro h
    obtain ⟨h1, -⟩ := str_append_eq_empty h
    obtain ⟨-, h2⟩ := str_append_eq_empty h1
    exact absurd h2 (by decide)

/-- Claim C5 (amended): on a failed optimize call the page keeps `result`
null and sets `error` to the computed message; an array `detail` is rendered
by joining each entry's `loc` path with `' → '` (falling back to `Field`),
then `': '` and the message, entries separated by `'; '`; a **non-empty**
string `detail` is shown verbatim (an empty one is falsy and falls through to
`err.message` or the default text); and the message is non-empty whenever the
array of validation errors is non-empty. -/
theorem c5_optimizer_error_handling (detail : Option Optimizer.JsDetail)
    (message : Option String) :
    (Optimizer.handleOptimizeFailure detail message).result = none ∧
    (Optimizer.handleOptimizeFailure detail message).error =
      some (Optimizer.computeErrorMessage detail message) ∧
    (∀ errs, detail = some (.arr errs) →
      Optimizer.computeErrorMessage detail message =
        jsJoin "; " (errs.map Optimizer.fmtValidationEntry)) ∧
    (∀ s, detail = some (.str s) → s ≠ "" →
      Optimizer.computeErrorMessage detail message = s) ∧
    (∀ errs, detail = some (.arr errs) → errs ≠ [] →
      Optimizer.computeErrorMessage detail message ≠ "") := by
  refine ⟨rfl, rfl, ?_, ?_, ?_⟩
  · rintro errs rfl
    simp [Optimizer.computeErrorMessage, Optimizer.detailTruthy]
  · rintro s rfl hs
    simp [Optimizer.computeErrorMessage, Optimizer.detailTruthy, hs]
  · rintro errs rfl hne
    have hmsg : Optimizer.computeErrorMessage (some (.arr errs)) message =
        jsJoin "; " (errs.map Optimizer.fmtValidationEntry) := by
      simp [Optimizer.computeErrorMessage, Optimizer.detailTruthy]
    rw [hmsg]
    cases errs with
    | nil => exact absurd rfl hne
    | cons e rest => exact jsJoin_fmt_ne_empty e rest

/-- Closed instances of the error-handling theorem, one per discharged
hypothesis shape. -/
theorem c5_optimizer_error_handling_witness :
    Optimizer.computeErrorMessage
        (some (.arr [{ loc := some ["body", "stops"], msg := "too short" }]))
        none = "body → stops: too short" ∧
    Optimizer.computeErrorMessage (some (.str "Geocoding failed")) none =
      "Geocoding failed" ∧
    Optimizer.computeErrorMessage
        (some (.arr [{ loc := some ["body"], msg := "m" }])) none ≠ "" := by
  refine ⟨?_, ?_, ?_⟩
  · exact ((c5_optimizer_error_handling
      (some (.arr [{ loc := some ["body", "stops"], msg := "too short" }]))
      none).2.2.1 _ rfl).trans (by decide)
  · exact (c5_optimizer_error_handling (some (.str "Geocoding failed"))
      none).2.2.2.1 _ rfl (by decide)
  · exact (c5_optimizer_error_handling
      (some (.arr [{ loc := some ["body"], msg := "m" }]))
      none).2.2.2.2 _ rfl (by decide)

/-- Claim C5 counterexample: when the rejection's `detail` is an **empty**
array of validation errors, the error state is set to the empty string — not
to a non-empty message as the claim asserts for every failure. -/
theorem c5_counterexample_empty_detail_array :
    (Optimizer.handleOptimizeFailure (some (Optimizer.JsDetail.arr [])) none).error =
      some "" ∧ ("" : String).length = 0 :=
  ⟨rfl, rfl⟩

/-- The construction heuristic visits the current stop and then a
permutation of the remaining stops. -/
theorem tourAux_perm (w : ℕ → ℕ → ℚ) :
    ∀ (n : ℕ) (remaining : List ℕ) (current : ℕ), remaining.length ≤ n →
      (tourAux w remaining current).Perm (current :: remaining) := by
  intro n
  induction n with
  | zero =>
    intro remaining current h
    have hnil : remaining = [] := by cases remaining <;> simp_all
    subst hnil
    rw [tourAux]
    split
    · exact List.Perm.refl _
    · next nxt heq => exact absurd heq (by simp [List.argmin_nil])
  | succ n ih =>
    intro remaining current h
    rw [tourAux]
    split
    · next heq =>
      have hnil : remaining = [] := by
        cases remaining with
        | nil => rfl
        | cons a t =>
          exact absurd (List.argmin_eq_none.mp heq) (by simp)
      simp [hnil]
    · next nxt heq =>
      have hm : nxt ∈ remaining := List.argmin_mem heq
      have hlen : (remaining.erase nxt).length ≤ n := by
        rw [List.length_erase_of_mem hm]
        have := List.length_pos_of_mem hm
        omega
      exact List.Perm.trans
        (List.Perm.cons current (ih _ nxt hlen))
        (List.Perm.cons current (List.perm_cons_erase hm).symm)

/-- The construction heuristic always starts at the current stop. -/
theorem tourAux_head (w : ℕ → ℕ → ℚ) (remaining : List ℕ) (current : ℕ) :
    ∃ t, tourAux w remaining current = current :: t := by
  rw [tourAux]
  split
  · exact ⟨[], rfl⟩
  · exact ⟨_, rfl⟩

/-- Claim C2: for a valid request (depot plus at least one stop, so `n ≥ 2`
resolved points) the primary route starts at the depot, visits every stop
index exactly once, and carries exactly one segment per stop. -/
theorem c2_optimized_route_invariants (w : ℕ → ℕ → ℚ) (n : ℕ) (hn : 2 ≤ n) :
    ((optimizeRoute w n).ordered_stops).head? = some 0 ∧
    (∀ s < n, ((optimizeRoute w n).ordered_stops).count s = 1) ∧
    (optimizeRoute w n).segments.length =
      ((optimizeRoute w n).ordered_stops).length := by
  have h0 : (0 : ℕ) :: (List.range n).drop 1 = List.range n := by
    obtain ⟨m, rfl⟩ : ∃ m, n = m + 1 := ⟨n - 1, by omega⟩
    rw [List.range_succ_eq_map]
    simp
  have hperm : ((optimizeRoute w n).ordered_stops).Perm (List.range n) := by
    have h1 := tourAux_perm w ((List.range n).drop 1).length
      ((List.range n).drop 1) 0 le_rfl
    rw [h0] at h1
    exact h1
  refine ⟨?_, ?_, ?_⟩
  · obtain ⟨t, ht⟩ := tourAux_head w ((List.range n).drop 1) 0
    show (solveTour w n).head? = some 0
    rw [solveTour, ht]
    rfl
  · intro s hs
    rw [hperm.count_eq s]
    exact List.count_eq_one_of_mem (List.nodup_range n) (List.mem_range.mpr hs)
  · simp [optimizeRoute, List.length_zip, List.length_rotate]

/-- Closed instance of the route invariants on a 3-point instance with unit
weights. -/
theorem c2_optimized_route_invariants_witness :
    ((optimizeRoute (fun _ _ => 1) 3).ordered_stops).head? = some 0 :=
  (c2_optimized_route_invariants (fun _ _ => 1) 3 (by norm_num)).1

/-- A left fold of `max` is at least its seed. -/
theorem le_foldl_max (x : ℚ) (l : List ℚ) : x ≤ l.foldl max x := by
  induction l generalizing x with
  | nil => exact le_rfl
  | cons b t ih => exact le_trans (le_max_left x b) (ih (max x b))

/-- A left fold of `min` is at most its seed. -/
theorem foldl_min_le (x : ℚ) (l : List ℚ) : l.foldl min x ≤ x := by
  induction l generalizing x with
  | nil => exact le_rfl
  | cons b t ih => exact le_trans (ih (min x b)) (min_le_left x b)

/-- The ensemble spread is never negative. -/
theorem ensembleSpread_nonneg (l : List ℚ) : 0 ≤ ensembleSpread l := by
  cases l with
  | nil => exact le_rfl
  | cons x t =>
    have h := le_trans (foldl_min_le x t) (le_foldl_max x t)
    simp only [ensembleSpread]
    linarith

/-- Claim C3: every produced cost prediction satisfies
`confidence_lower ≤ predicted_cost_usd ≤ confidence_upper`. -/
theorem c3_cost_prediction_bounds (f : CostFeatures) (ensemble : List ℚ) :
    (predictCost f ensemble).confidence_lower ≤
      (predictCost f ensemble).predicted_cost_usd ∧
    (predictCost f ensemble).predicted_cost_usd ≤
      (predictCost f ensemble).confidence_upper := by
  have h := ensembleSpread_nonneg ensemble
  constructor <;> simp only [predictCost] <;> linarith
